import Mathlib

/-!
Shallow embedding of the FounderOS browser-extension automation core:
the background service worker (queue fetcher, per-platform posters,
confirmation reporter, queue processor, message listener), the two
content scripts (X and LinkedIn), and the popup's daily-posted counter
update.  Each definition is annotated with the source file and lines it
embeds.  Machine-level concerns (real time, the DOM) are modelled by
explicit environment records: one boolean / option field per DOM query
the code performs, and explicit timestamps for clock reads.
-/

namespace FounderOS

/-- A queue item, as delivered by
`GET /marketing/extension/pending/{user_id}`.  `scheduled_time` is the
parsed timestamp (`new Date(post.scheduled_time)` in the source); `none`
models the field being absent. -/
structure Post where
  id : String
  content : String
  platform : String
  scheduled_time : Option Int
deriving DecidableEq, Repr

/-- Outcome of the HTTP GET in `fetchQueuedPosts` (background worker,
lines 37-47): the request may fail with a network error (the `catch`
branch), or return a response with an `ok` flag and a JSON body whose
`posts` field may be absent (`data.posts || []`). -/
inductive FetchOutcome where
  | networkError : FetchOutcome
  | httpResponse (ok : Bool) (posts : Option (List Post)) : FetchOutcome
deriving DecidableEq, Repr

/-- Background worker lines 37-47: `if (!response.ok) return [];
return data.posts || [];` and `catch { return []; }`. -/
def fetchQueuedPosts : FetchOutcome → List Post
  | .networkError => []
  | .httpResponse ok posts => if ok then posts.getD [] else []

/-- A desktop notification as created by `chrome.notifications.create`. -/
structure ChromeNotification where
  kind : String
  iconUrl : String
  title : String
  message : String
deriving DecidableEq, Repr

/-- Background worker lines 299-306: fixed icon, literal title made of
the prefix `FounderOS: ` and the given title, message passed through. -/
def showNotification (title message : String) : ChromeNotification :=
  { kind := "basic"
    iconUrl := "icons/icon128.png"
    title := "FounderOS: " ++ title
    message := message }

/-!  Page-context actions.  The injected scripts and the content scripts
manipulate the page DOM; we record each observable manipulation as an
action.  Selector strings name the selector used by the source (for
`data-testid` selectors we keep the testid, for class selectors the
class name). -/

/-- The controls the page scripts click, one constructor per CSS
selector of the source: `sideNavNewTweet` is X's
`[data-testid="SideNav_NewTweet_Button"]`, `tweetButton` X's
`[data-testid="tweetButton"]` / `tweetButtonInline`, `scheduleOption`
X's `[data-testid="scheduleOption"]`, `scheduledConfirmation` X's
`[data-testid="scheduledConfirmationPrimaryAction"]`,
`shareBoxTrigger` LinkedIn's `.share-box-feed-entry__trigger`,
`sharePrimaryAction` LinkedIn's `.share-actions__primary-action`,
`schedulePost` LinkedIn's `[data-control-name="schedule_post"]` /
`.share-box-footer__schedule-btn`, and `scheduleConfirm` LinkedIn's
`[data-control-name="schedule_confirm"]`. -/
inductive Sel where
  | sideNavNewTweet
  | tweetButton
  | scheduleOption
  | scheduledConfirmation
  | shareBoxTrigger
  | sharePrimaryAction
  | schedulePost
  | scheduleConfirm
deriving DecidableEq, Repr

inductive PageAction where
  | click (selector : Sel)
  | navigate (url : String)
  | insertText (text : String)
  | setTextContent (text : String)
  | setEditorHTML (html : String)
  | fillDate (scheduled : Int)
  | fillTime (scheduled : Int)
  | pageSleep (ms : Nat)
deriving DecidableEq, Repr

/-- An action that opens, fills or confirms a platform's native
scheduling UI. -/
def isScheduleAction : PageAction → Bool
  | .click .scheduleOption => true
  | .click .scheduledConfirmation => true
  | .click .schedulePost => true
  | .click .scheduleConfirm => true
  | .fillDate _ => true
  | .fillTime _ => true
  | _ => false

/-- An immediate submit click (X's tweet button, LinkedIn's primary
share action). -/
def isSubmitClick : PageAction → Bool
  | .click .tweetButton => true
  | .click .sharePrimaryAction => true
  | _ => false

/-!  The X page as seen by the background-injected `autoPostToX`
(background worker lines 150-202).  One field per DOM query:
`raisesError` models any exception thrown inside the `try` body
(caught at lines 197-200); `tweetBox` is whether any of the three
fallback input selectors matches; `postBtn` is `none` when neither
submit-button selector matches and `some d` when one matches with
`disabled = d`. -/

structure XPage where
  raisesError : Bool
  onComposePage : Bool
  composeBtn : Bool
  tweetBox : Bool
  postBtn : Option Bool
deriving DecidableEq, Repr

/-- Background worker lines 150-202, `autoPostToX(content)`: returns the
resolved boolean together with the page actions performed. -/
def autoPostToX (page : XPage) (content : String) : Bool × List PageAction :=
  if page.raisesError then (false, [])
  else
    let pre : List PageAction :=
      if !page.onComposePage && page.composeBtn then
        [.click .sideNavNewTweet, .pageSleep 1500]
      else []
    if !page.tweetBox then (false, pre)
    else
      let typed := pre ++ [.pageSleep 300, .insertText content, .pageSleep 500]
      match page.postBtn with
      | none => (false, typed)
      | some disabled =>
        if disabled then (false, typed)
        else (true, typed ++ [.pageSleep 1000, .click .tweetButton, .pageSleep 2000])

/-- The LinkedIn page as seen by the background-injected
`autoPostToLinkedIn` (background worker lines 204-260), one field per
DOM query, as for `XPage`. -/
structure LIPage where
  raisesError : Bool
  startPostBtn : Bool
  editor : Bool
  postBtn : Option Bool
deriving DecidableEq, Repr

/-- Background worker lines 204-260, `autoPostToLinkedIn(content)`. -/
def autoPostToLinkedIn (page : LIPage) (content : String) :
    Bool × List PageAction :=
  if page.raisesError then (false, [])
  else
    let pre : List PageAction :=
      if page.startPostBtn then
        [.click .shareBoxTrigger, .pageSleep 1500]
      else []
    if !page.editor then (false, pre)
    else
      let typed := pre ++
        [.pageSleep 300,
         .setEditorHTML ("<p>" ++ content.replace "\n" "</p><p>" ++ "</p>"),
         .pageSleep 1000]
      match page.postBtn with
      | none => (false, typed)
      | some disabled =>
        if disabled then (false, typed)
        else (true, typed ++
          [.pageSleep 1500, .click .sharePrimaryAction, .pageSleep 2000])

/-!  The selector-polling helper shared verbatim by both content scripts
(content-x.js lines 96-106 and the LinkedIn content script lines
114-124):

    const start = Date.now();
    while (Date.now() - start < timeout) {
      const element = document.querySelector(selector);
      if (element) return element;
      await sleep(100);
    }
    return null;

`dom t` is the result of `document.querySelector(selector)` when the
elapsed time since `start` is `t` milliseconds; each loop iteration
advances the elapsed time by the fixed 100 ms sleep. -/

def waitForElementAux {α : Type} (dom : Nat → Option α) (timeout elapsed : Nat) :
    Option α :=
  if _h : elapsed < timeout then
    match dom elapsed with
    | some e => some e
    | none => waitForElementAux dom timeout (elapsed + 100)
  else none
termination_by timeout - elapsed
decreasing_by omega

def waitForElement {α : Type} (dom : Nat → Option α) (timeout : Nat) : Option α :=
  waitForElementAux dom timeout 0

/-!  Content script for X (content-x.js lines 17-82, `postToX(post)`).
Each `await waitForElement(sel, t)` call site is abstracted as a boolean
field of the page record recording whether the element was found within
that call's timeout; `humanDelay` is the value drawn by
`randomDelay(500, 1500)`. -/

structure XCPage where
  raisesError : Bool
  onComposePage : Bool
  textarea : Bool
  textContentEmptyAfterInsert : Bool
  scheduleBtn : Bool
  scheduleConfirmBtn : Bool
  postBtn : Bool
  humanDelay : Nat
deriving DecidableEq, Repr

namespace ContentX

/-- content-x.js lines 17-82.  Note the control flow: the `if/else` on
`post.scheduled_time` falls through to the final `return true`
whenever its branch does not return, so a missing schedule button,
a missing confirm button, and a missing post button all still yield
`true`; only a missing textarea or a thrown exception yields `false`. -/
def postToX (page : XCPage) (post : Post) : Bool × List PageAction :=
  if page.raisesError then (false, [])
  else
    let nav : List PageAction :=
      if !page.onComposePage then
        [.navigate "https://x.com/compose/tweet", .pageSleep 2000]
      else []
    if !page.textarea then (false, nav)
    else
      let typed := nav ++ [.insertText post.content] ++
        (if page.textContentEmptyAfterInsert then
          [.setTextContent post.content] else []) ++
        [.pageSleep 500]
      match post.scheduled_time with
      | some _ =>
        if page.scheduleBtn then
          (true, typed ++ [.click .scheduleOption, .pageSleep 500] ++
            (if page.scheduleConfirmBtn then
              [.click .scheduledConfirmation] else []))
        else (true, typed)
      | none =>
        if page.postBtn then
          (true, typed ++
            [.pageSleep page.humanDelay, .click .tweetButton, .pageSleep 2000])
        else (true, typed)

end ContentX

/-!  Content script for LinkedIn (LinkedIn content script lines 17-100,
`postToLinkedIn(post)`), abstracted the same way; `humanDelay` is the
value drawn by `randomDelay(800, 2000)`. -/

structure LICPage where
  raisesError : Bool
  startPostBtn : Bool
  editor : Bool
  scheduleBtn : Bool
  dateInput : Bool
  timeInput : Bool
  scheduleConfirmBtn : Bool
  postBtn : Bool
  humanDelay : Nat
deriving DecidableEq, Repr

namespace ContentLI

/-- LinkedIn content script lines 17-100.  The same fall-through applies:
only a missing editor or a thrown exception yields `false`; every other
path reaches the final `return true`. -/
def postToLinkedIn (page : LICPage) (post : Post) : Bool × List PageAction :=
  if page.raisesError then (false, [])
  else
    let pre : List PageAction :=
      if page.startPostBtn then
        [.click .shareBoxTrigger, .pageSleep 1000]
      else []
    if !page.editor then (false, pre)
    else
      let typed := pre ++
        [.setEditorHTML ("<p>" ++ post.content.replace "\n" "<br>" ++ "</p>"),
         .pageSleep 500]
      match post.scheduled_time with
      | some t =>
        if page.scheduleBtn then
          (true, typed ++ [.click .schedulePost, .pageSleep 500] ++
            (if page.dateInput && page.timeInput then
              [.fillDate t, .fillTime t] else []) ++
            (if page.scheduleConfirmBtn then [.click .scheduleConfirm] else []))
        else (true, typed)
      | none =>
        if page.postBtn then
          (true, typed ++
            [.pageSleep page.humanDelay,
             .click .sharePrimaryAction, .pageSleep 2000])
        else (true, typed)

end ContentLI

/-!  Background-worker effects.  `processQueue` and the per-platform
posters in the background worker perform browser-level side effects;
we record them as an explicit trace. -/

/-- The page-context function passed to `chrome.scripting.executeScript`. -/
inductive InjectedFunc where
  | autoPostToX : InjectedFunc
  | autoPostToLinkedIn : InjectedFunc
deriving DecidableEq, Repr

inductive Effect where
  | tabQuery (urlPatterns : List String)
  | tabCreate (url : String)
  | wait (ms : Nat)
  | inject (tabId : Nat) (func : InjectedFunc) (arg : String)
  | confirmPublished (postId : String)
  | notify (n : ChromeNotification)
deriving DecidableEq, Repr

/-- Background worker lines 49-59: issue
`POST /marketing/extension/confirm/{postId}`; any error is caught and
only logged, so the effect of the call is always the single POST. -/
def markPostAsPublished (postId : String) : List Effect :=
  [.confirmPublished postId]

/-- Environment of one `postToTwitter` invocation (background worker
lines 65-107): `existingTabId` is `some id` when
`chrome.tabs.query({url: [x.com, twitter.com]})` finds a tab,
`createdTabId` the id assigned by `chrome.tabs.create` otherwise;
`injectionThrows` models `chrome.scripting.executeScript` itself
rejecting (the `catch` at lines 102-105); `page` is the X page state the
injected `autoPostToX` runs against. -/
structure XEnv where
  existingTabId : Option Nat
  createdTabId : Nat
  injectionThrows : Bool
  page : XPage
deriving DecidableEq, Repr

/-- Background worker lines 70-85: find or create an X tab; a created
tab is opened on the compose URL in the background and followed by a
fixed 4000 ms warm-up wait. -/
def xTabSetup (env : XEnv) : Nat × List Effect :=
  match env.existingTabId with
  | some t => (t, [.tabQuery ["*://x.com/*", "*://twitter.com/*"]])
  | none =>
    (env.createdTabId,
     [.tabQuery ["*://x.com/*", "*://twitter.com/*"],
      .tabCreate "https://x.com/compose/tweet", .wait 4000])

namespace Background

/-- Background worker lines 65-107, `postToTwitter(post)`: inject
`autoPostToX` with the post content; on a truthy injected result,
confirm the post as published and raise the success notification, then
resolve `true`; on a falsy result or a thrown injection, resolve
`false`. -/
def postToTwitter (env : XEnv) (post : Post) : Bool × List Effect :=
  let setup := xTabSetup env
  let injected := Effect.inject setup.1 .autoPostToX post.content
  if env.injectionThrows then (false, setup.2 ++ [injected])
  else if (autoPostToX env.page post.content).1 then
    (true, setup.2 ++ [injected] ++ markPostAsPublished post.id ++
      [.notify (showNotification "Posted to X!" (post.content.take 50 ++ "..."))])
  else (false, setup.2 ++ [injected])

end Background

/-- Environment of one background `postToLinkedIn` invocation (lines
109-147), analogous to `XEnv`. -/
structure LIEnv where
  existingTabId : Option Nat
  createdTabId : Nat
  injectionThrows : Bool
  page : LIPage
deriving DecidableEq, Repr

/-- Background worker lines 114-126: find or create a LinkedIn tab. -/
def liTabSetup (env : LIEnv) : Nat × List Effect :=
  match env.existingTabId with
  | some t => (t, [.tabQuery ["*://www.linkedin.com/*"]])
  | none =>
    (env.createdTabId,
     [.tabQuery ["*://www.linkedin.com/*"],
      .tabCreate "https://www.linkedin.com/feed/", .wait 4000])

namespace Background

/-- Background worker lines 109-147, `postToLinkedIn(post)`. -/
def postToLinkedIn (env : LIEnv) (post : Post) : Bool × List Effect :=
  let setup := liTabSetup env
  let injected := Effect.inject setup.1 .autoPostToLinkedIn post.content
  if env.injectionThrows then (false, setup.2 ++ [injected])
  else if (autoPostToLinkedIn env.page post.content).1 then
    (true, setup.2 ++ [injected] ++ markPostAsPublished post.id ++
      [.notify (showNotification "Posted to LinkedIn!"
        (post.content.take 50 ++ "..."))])
  else (false, setup.2 ++ [injected])

end Background

/-- Environment of one loop iteration of `processQueue` (lines 273-292):
`now` is the value of `new Date()` at that iteration's scheduling check,
and `xEnv` / `liEnv` the environment the platform poster would run in. -/
structure PostEnv where
  now : Int
  xEnv : XEnv
  liEnv : LIEnv
deriving DecidableEq, Repr

/-- Background worker lines 283-291: the body of one loop iteration past
the scheduling check — dispatch on `post.platform` (platforms other than
`x` and `linkedin` fall through with no poster invoked) followed by the
fixed 3000 ms inter-post delay. -/
def dispatchPost (env : PostEnv) (post : Post) : List Effect :=
  (if post.platform = "x" then (Background.postToTwitter env.xEnv post).2
   else if post.platform = "linkedin" then
     (Background.postToLinkedIn env.liEnv post).2
   else []) ++ [.wait 3000]

/-- Background worker lines 273-292, one loop iteration: a post whose
`scheduled_time` parses to a date strictly later than `new Date()` is
skipped (`continue`) with no effect; otherwise the iteration body runs. -/
def processPost (env : PostEnv) (post : Post) : List Effect :=
  match post.scheduled_time with
  | some t => if env.now < t then [] else dispatchPost env post
  | none => dispatchPost env post

/-- Background worker lines 266-293, `processQueue()`: fetch the pending
queue, return immediately when it is empty, otherwise run the loop body
on each post in order.  `env i` is the environment of the i-th
iteration. -/
def processQueue (fetchOut : FetchOutcome) (env : Nat → PostEnv) : List Effect :=
  let posts := fetchQueuedPosts fetchOut
  if posts.length = 0 then []
  else (posts.enum.map fun ip => processPost (env ip.1) ip.2).flatten

/-- The `{ success, error }` object sent by `sendResponse` in the
background worker's message listener. -/
structure BgResponse where
  success : Bool
  error : Option String
deriving DecidableEq, Repr

/-- Background worker lines 324-331: `.then(() => sendResponse({success:
true}))` / `.catch(err => sendResponse({success: false, error:
err.message}))`. -/
def processNowResponse (passResult : Except String (List Effect)) : BgResponse :=
  match passResult with
  | .ok _ => { success := true, error := none }
  | .error e => { success := false, error := some e }

/-- Background worker lines 322-333, the `PROCESS_NOW` handler: run one
orchestration pass and map its completion through `processNowResponse`.
Every failure path inside `processQueue` resolves to a value rather than
rejecting (the fetch and both posters catch their own errors), so the
pass always completes and the result fed to the handler is `.ok` of the
pass trace. -/
def runProcessNow (fetchOut : FetchOutcome) (env : Nat → PostEnv) : BgResponse :=
  processNowResponse (.ok (processQueue fetchOut env))

/-- popup.js lines 72-81: on a response with `success` truthy, the new
persisted `postedToday` value is `(stored || 0) + posts.length` where
`posts` is the queue list currently displayed by the popup; on a missing
or unsuccessful response, storage is not written. -/
def postAllNowUpdate (response : Option BgResponse) (stored : Option Nat)
    (displayed : List Post) : Option Nat :=
  match response with
  | some r =>
    if r.success then some (stored.getD 0 + displayed.length) else stored
  | none => stored

/-!  Effect classifiers and concrete fixtures used by the theorems. -/

def isConfirm : Effect → Bool
  | .confirmPublished _ => true
  | _ => false

def isConfirmFor (postId : String) : Effect → Bool
  | .confirmPublished p => p == postId
  | _ => false

def isInject : Effect → Bool
  | .inject _ _ _ => true
  | _ => false

def isNotify : Effect → Bool
  | .notify _ => true
  | _ => false

/-- An X page on which `autoPostToX` fully succeeds. -/
def workingXPage : XPage :=
  { raisesError := false, onComposePage := true, composeBtn := false
    tweetBox := true, postBtn := some false }

/-- A LinkedIn page on which `autoPostToLinkedIn` fully succeeds. -/
def workingLIPage : LIPage :=
  { raisesError := false, startPostBtn := true, editor := true
    postBtn := some false }

def sampleXEnv : XEnv :=
  { existingTabId := some 5, createdTabId := 9, injectionThrows := false
    page := workingXPage }

def sampleLIEnv : LIEnv :=
  { existingTabId := some 6, createdTabId := 10, injectionThrows := false
    page := workingLIPage }

def sampleEnv : PostEnv := { now := 200, xEnv := sampleXEnv, liEnv := sampleLIEnv }

def futurePost : Post :=
  { id := "p1", content := "hello", platform := "x", scheduled_time := some 1000 }

def duePost : Post :=
  { id := "p2", content := "hello", platform := "x", scheduled_time := some 100 }

def unscheduledPost : Post :=
  { id := "p3", content := "hello", platform := "x", scheduled_time := none }

/-- C2: on a non-success HTTP status or a network error the queue fetcher
returns the empty list instead of raising, so a failed fetch is
indistinguishable from an empty queue. -/
theorem fetch_failure_yields_empty :
    fetchQueuedPosts .networkError = [] ∧
    (∀ body : Option (List Post), fetchQueuedPosts (.httpResponse false body) = []) ∧
    fetchQueuedPosts (.httpResponse true (some [])) = fetchQueuedPosts .networkError :=
  ⟨rfl, fun _ => rfl, rfl⟩

/-- C1: for every post handed to a background platform poster, the
confirmation POST carrying that post's identifier is issued exactly once
when the poster's boolean result is true and never otherwise, and every
confirmation issued carries that post's identifier. -/
theorem confirm_iff_poster_success (xe : XEnv) (le : LIEnv) (post : Post) :
    ((Background.postToTwitter xe post).2.countP (isConfirmFor post.id)
      = if (Background.postToTwitter xe post).1 then 1 else 0) ∧
    ((Background.postToTwitter xe post).2.countP isConfirm
      = (Background.postToTwitter xe post).2.countP (isConfirmFor post.id)) ∧
    ((Background.postToLinkedIn le post).2.countP (isConfirmFor post.id)
      = if (Background.postToLinkedIn le post).1 then 1 else 0) ∧
    ((Background.postToLinkedIn le post).2.countP isConfirm
      = (Background.postToLinkedIn le post).2.countP (isConfirmFor post.id)) := by
  refine ⟨?_, ?_, ?_, ?_⟩ <;>
  · first
    | (unfold Background.postToTwitter
       cases hb : (autoPostToX xe.page post.content).1 <;>
       cases ht : xe.injectionThrows <;>
       rcases he : xe.existingTabId with _ | t <;>
         simp [hb, ht, he, xTabSetup, markPostAsPublished, List.countP_append,
               List.countP_cons, isConfirm, isConfirmFor])
    | (unfold Background.postToLinkedIn
       cases hb : (autoPostToLinkedIn le.page post.content).1 <;>
       cases ht : le.injectionThrows <;>
       rcases he : le.existingTabId with _ | t <;>
         simp [hb, ht, he, liTabSetup, markPostAsPublished, List.countP_append,
               List.countP_cons, isConfirm, isConfirmFor])

/-- C10: when the fetched queue is empty the orchestration pass performs
no side effect at all — no tab query or creation, no injection, no
confirmation POST, no notification, and no inter-post delay. -/
theorem empty_fetch_no_effects (fetchOut : FetchOutcome) (env : Nat → PostEnv)
    (h : fetchQueuedPosts fetchOut = []) : processQueue fetchOut env = [] := by
  unfold processQueue
  simp [h]

theorem empty_fetch_no_effects_witness :
    processQueue .networkError (fun _ => sampleEnv) = [] :=
  empty_fetch_no_effects .networkError (fun _ => sampleEnv) rfl

/-- C9: a `PROCESS_NOW` request is answered with `{success: true}`
whenever the orchestration pass completes — which it always does in the
model, since every failure path inside the pass resolves to a value —
regardless of the fetch outcome and of the posters' boolean results,
including passes that publish nothing. -/
theorem process_now_always_success :
    (∀ (fetchOut : FetchOutcome) (env : Nat → PostEnv),
      runProcessNow fetchOut env = { success := true, error := none }) ∧
    (∀ env : Nat → PostEnv,
      runProcessNow .networkError env = { success := true, error := none }) ∧
    (∀ (fetchOut : FetchOutcome) (env : Nat → PostEnv),
      (processQueue fetchOut env).countP isConfirm = 0 →
        runProcessNow fetchOut env = { success := true, error := none }) :=
  ⟨fun _ _ => rfl, fun _ => rfl, fun _ _ _ => rfl⟩

theorem process_now_always_success_witness :
    runProcessNow .networkError (fun _ => sampleEnv)
      = { success := true, error := none } :=
  process_now_always_success.2.2 .networkError (fun _ => sampleEnv) rfl

/-- C7: on a success response to the batch post-now action the popup
sets the persisted daily counter to its stored value plus the number of
currently displayed queue posts — for any pass outcome whatsoever, with
no reconciliation against how many posts were actually published. -/
theorem daily_counter_optimistic_increment :
    (∀ (stored : Option Nat) (displayed : List Post),
      postAllNowUpdate (some { success := true, error := none }) stored displayed
        = some (stored.getD 0 + displayed.length)) ∧
    (∀ (stored : Option Nat) (displayed : List Post) (fetchOut : FetchOutcome)
        (env : Nat → PostEnv),
      postAllNowUpdate (some (runProcessNow fetchOut env)) stored displayed
        = some (stored.getD 0 + displayed.length)) :=
  ⟨fun _ _ => rfl, fun _ _ _ _ => rfl⟩

/-!  Behaviour of the selector-polling loop.  The lemmas are proved by
induction on an explicit fuel bound for the remaining wait
`timeout - elapsed`, which shrinks by 100 on every iteration. -/

theorem waitForElementAux_eq_none {α : Type} (dom : Nat → Option α)
    (timeout : Nat) :
    ∀ fuel elapsed, timeout - elapsed ≤ fuel →
      (∀ t, elapsed ≤ t → t < timeout → dom t = none) →
      waitForElementAux dom timeout elapsed = none := by
  intro fuel
  induction fuel with
  | zero =>
    intro elapsed hf _
    unfold waitForElementAux
    have h : ¬ elapsed < timeout := by omega
    simp [h]
  | succ n ih =>
    intro elapsed hf hdom
    unfold waitForElementAux
    by_cases h : elapsed < timeout
    · rw [dif_pos h, hdom elapsed le_rfl h]
      exact ih (elapsed + 100) (by omega) (fun t ht1 ht2 => hdom t (by omega) ht2)
    · rw [dif_neg h]

theorem waitForElementAux_eq_some {α : Type} (dom : Nat → Option α)
    (timeout : Nat) (e : α) :
    ∀ fuel k elapsed, timeout - elapsed ≤ fuel →
      elapsed + 100 * k < timeout →
      dom (elapsed + 100 * k) = some e →
      (∀ j, j < k → dom (elapsed + 100 * j) = none) →
      waitForElementAux dom timeout elapsed = some e := by
  intro fuel
  induction fuel with
  | zero => intro k elapsed hf hk _ _; omega
  | succ n ih =>
    intro k elapsed hf hk hd hprev
    have hel : elapsed < timeout := by omega
    unfold waitForElementAux
    rw [dif_pos hel]
    cases k with
    | zero =>
      have hd0 : dom elapsed = some e := by
        have h : elapsed + 100 * 0 = elapsed := by omega
        rw [h] at hd; exact hd
      rw [hd0]
    | succ m =>
      have h0 : dom elapsed = none := by
        have h := hprev 0 (Nat.succ_pos m)
        have heq : elapsed + 100 * 0 = elapsed := by omega
        rw [heq] at h; exact h
      rw [h0]
      refine ih m (elapsed + 100) (by omega) (by omega) ?_ ?_
      · have heq : elapsed + 100 + 100 * m = elapsed + 100 * (m + 1) := by omega
        rw [heq]; exact hd
      · intro j hj
        have heq : elapsed + 100 + 100 * j = elapsed + 100 * (j + 1) := by omega
        rw [heq]; exact hprev (j + 1) (by omega)

theorem waitForElementAux_congr {α : Type} (dom₁ dom₂ : Nat → Option α)
    (timeout : Nat) :
    ∀ fuel elapsed, timeout - elapsed ≤ fuel →
      (∀ t, t < timeout → dom₁ t = dom₂ t) →
      waitForElementAux dom₁ timeout elapsed
        = waitForElementAux dom₂ timeout elapsed := by
  intro fuel
  induction fuel with
  | zero =>
    intro elapsed hf _
    have h : ¬ elapsed < timeout := by omega
    unfold waitForElementAux
    rw [dif_neg h, dif_neg h]
  | succ n ih =>
    intro elapsed hf hdom
    unfold waitForElementAux
    by_cases h : elapsed < timeout
    · rw [dif_pos h, dif_pos h, hdom elapsed h]
      cases h2 : dom₂ elapsed with
      | some e => rfl
      | none => exact ih (elapsed + 100) (by omega) hdom
    · rw [dif_neg h, dif_neg h]

/-- C6: the selector-polling helper is a total function (it is defined
by recursion on the remaining wait, so it terminates on every input);
it consults the DOM only at the poll instants before the timeout (third
conjunct), returns `none` when no element matches before the timeout
elapses (first conjunct), and returns the element found at the first
matching poll otherwise (second conjunct). -/
theorem waitForElement_poll_spec {α : Type} (dom : Nat → Option α) (timeout : Nat) :
    ((∀ t, t < timeout → dom t = none) → waitForElement dom timeout = none) ∧
    (∀ k e, 100 * k < timeout → dom (100 * k) = some e →
      (∀ j, j < k → dom (100 * j) = none) →
      waitForElement dom timeout = some e) ∧
    (∀ dom₂ : Nat → Option α, (∀ t, t < timeout → dom t = dom₂ t) →
      waitForElement dom timeout = waitForElement dom₂ timeout) := by
  refine ⟨?_, ?_, ?_⟩
  · intro h
    exact waitForElementAux_eq_none dom timeout timeout 0 (by omega)
      (fun t _ ht => h t ht)
  · intro k e hk hd hprev
    refine waitForElementAux_eq_some dom timeout e timeout k 0 (by omega)
      (by omega) ?_ ?_
    · have heq : 0 + 100 * k = 100 * k := by omega
      rw [heq]; exact hd
    · intro j hj
      have heq : 0 + 100 * j = 100 * j := by omega
      rw [heq]; exact hprev j hj
  · intro dom₂ h
    exact waitForElementAux_congr dom dom₂ timeout timeout 0 (by omega) h

/-- A DOM in which the selector never matches. -/
def domNever : Nat → Option Nat := fun _ => none

/-- A DOM in which the selector first matches at 200 ms elapsed. -/
def domAt200 : Nat → Option Nat := fun t => if t = 200 then some 7 else none

theorem waitForElement_poll_spec_witness :
    waitForElement domNever 500 = none ∧ waitForElement domAt200 1000 = some 7 := by
  constructor
  · exact (waitForElement_poll_spec domNever 500).1 (fun _ _ => rfl)
  · exact (waitForElement_poll_spec domAt200 1000).2.1 2 7 (by omega) (by decide)
      (by decide)

/-- Every background `postToTwitter` invocation injects the page script
exactly once. -/
theorem countP_isInject_postToTwitter (xe : XEnv) (post : Post) :
    (Background.postToTwitter xe post).2.countP isInject = 1 := by
  unfold Background.postToTwitter
  cases hb : (autoPostToX xe.page post.content).1 <;>
  cases ht : xe.injectionThrows <;>
  rcases he : xe.existingTabId with _ | t <;>
    simp [hb, ht, he, xTabSetup, markPostAsPublished, List.countP_append,
          List.countP_cons, isInject]

/-- Every background `postToLinkedIn` invocation injects the page script
exactly once. -/
theorem countP_isInject_postToLinkedIn (le : LIEnv) (post : Post) :
    (Background.postToLinkedIn le post).2.countP isInject = 1 := by
  unfold Background.postToLinkedIn
  cases hb : (autoPostToLinkedIn le.page post.content).1 <;>
  cases ht : le.injectionThrows <;>
  rcases he : le.existingTabId with _ | t <;>
    simp [hb, ht, he, liTabSetup, markPostAsPublished, List.countP_append,
          List.countP_cons, isInject]

/-- C3: a post whose `scheduled_time` is present and strictly in the
future at its scheduling check is skipped with no effect at all — in
particular no platform poster is invoked and no confirmation is issued,
so it stays pending; a post whose `scheduled_time` is absent or has
elapsed runs the full iteration body, which for the automated platforms
invokes the platform poster exactly once. -/
theorem scheduling_gate (env : PostEnv) (post : Post) :
    (∀ t, post.scheduled_time = some t → env.now < t →
      processPost env post = []) ∧
    (post.scheduled_time = none →
      processPost env post = dispatchPost env post) ∧
    (∀ t, post.scheduled_time = some t → t ≤ env.now →
      processPost env post = dispatchPost env post) ∧
    (post.platform = "x" → (dispatchPost env post).countP isInject = 1) ∧
    (post.platform = "linkedin" → (dispatchPost env post).countP isInject = 1) := by
  refine ⟨?_, ?_, ?_, ?_, ?_⟩
  · intro t ht hn
    unfold processPost
    rw [ht]
    simp [hn]
  · intro h
    unfold processPost
    rw [h]
  · intro t ht hn
    unfold processPost
    rw [ht]
    have h : ¬ env.now < t := by omega
    simp [h]
  · intro h
    unfold dispatchPost
    simp [h, List.countP_append, List.countP_cons, isInject,
          countP_isInject_postToTwitter]
  · intro h
    unfold dispatchPost
    simp [h, List.countP_append, List.countP_cons, isInject,
          countP_isInject_postToLinkedIn]

theorem scheduling_gate_witness :
    processPost sampleEnv futurePost = [] ∧
    processPost sampleEnv duePost = dispatchPost sampleEnv duePost ∧
    processPost sampleEnv unscheduledPost = dispatchPost sampleEnv unscheduledPost ∧
    (dispatchPost sampleEnv duePost).countP isInject = 1 :=
  ⟨(scheduling_gate sampleEnv futurePost).1 1000 rfl (by decide),
   (scheduling_gate sampleEnv duePost).2.2.1 100 rfl (by decide),
   (scheduling_gate sampleEnv unscheduledPost).2.1 rfl,
   (scheduling_gate sampleEnv duePost).2.2.2.1 rfl⟩

set_option maxRecDepth 4096 in
/-- C8: every successful X post raises exactly one desktop notification,
whose title is the literal `FounderOS: ` followed by the
platform-naming message `Posted to X!` (which contains `X`), and whose
body is the first 50 characters of the post content followed by `...`;
for the content `Launch day!` that body is `Launch day!...`, which
contains `Launch day!`. -/
theorem success_notification_format (env : XEnv) (post : Post)
    (h : (Background.postToTwitter env post).1 = true) :
    Effect.notify (showNotification "Posted to X!" (post.content.take 50 ++ "..."))
      ∈ (Background.postToTwitter env post).2 ∧
    (Background.postToTwitter env post).2.countP isNotify = 1 ∧
    (showNotification "Posted to X!" (post.content.take 50 ++ "...")).title
      = "FounderOS: Posted to X!" ∧
    ('X' ∈ ("FounderOS: Posted to X!").toList) ∧
    (showNotification "Posted to X!" ("Launch day!".take 50 ++ "...")).message
      = "Launch day!..." ∧
    (("Launch day!").toList.isPrefixOf
      (showNotification "Posted to X!"
        ("Launch day!".take 50 ++ "...")).message.toList) = true := by
  cases ht : env.injectionThrows with
  | true =>
    exfalso
    unfold Background.postToTwitter at h
    simp [ht] at h
  | false =>
    cases hb : (autoPostToX env.page post.content).1 with
    | false =>
      exfalso
      unfold Background.postToTwitter at h
      simp [ht, hb] at h
    | true =>
      refine ⟨?_, ?_, rfl, by decide, rfl, by decide⟩
      · unfold Background.postToTwitter
        simp [ht, hb, markPostAsPublished]
      · unfold Background.postToTwitter
        rcases he : env.existingTabId with _ | t <;>
          simp [ht, hb, he, xTabSetup, markPostAsPublished, List.countP_append,
                List.countP_cons, isNotify]

/-- The end-to-end example post of the spec. -/
def launchPost : Post :=
  { id := "p9", content := "Launch day!", platform := "x", scheduled_time := none }

set_option maxRecDepth 4096 in
theorem success_notification_format_witness :
    (Background.postToTwitter sampleXEnv launchPost).1 = true ∧
    Effect.notify
        (showNotification "Posted to X!" (launchPost.content.take 50 ++ "..."))
      ∈ (Background.postToTwitter sampleXEnv launchPost).2 :=
  ⟨by decide, (success_notification_format sampleXEnv launchPost (by decide)).1⟩

/-- A content-script X page: textarea present, no submit button, no
schedule UI, no exception. -/
def noSubmitXCPage : XCPage :=
  { raisesError := false, onComposePage := true, textarea := true
    textContentEmptyAfterInsert := false, scheduleBtn := false
    scheduleConfirmBtn := false, postBtn := false, humanDelay := 500 }

def plainXPost : Post :=
  { id := "p10", content := "hello", platform := "x", scheduled_time := none }

/-- C4 counterexample: the content-script X poster returns `true` on a
page where the submit control is missing — with the textarea present but
no tweet button, `postToX` falls through to its final `return true`
without performing any submit click, refuting "false for every other
outcome, including ... missing submit control". -/
theorem content_poster_true_without_submit_cex :
    (ContentX.postToX noSubmitXCPage plainXPost).1 = true ∧
    noSubmitXCPage.postBtn = false ∧
    (ContentX.postToX noSubmitXCPage plainXPost).2.countP isSubmitClick = 0 := by
  decide

/-- C4 amended: the background-injected posters (`autoPostToX`,
`autoPostToLinkedIn`) satisfy the claimed boolean contract — `true`
exactly when no exception is thrown, the input element is found, and the
submit control is found and enabled, in which case the submit control is
clicked exactly once, while every failing outcome clicks it zero times;
the content-script posters (`postToX`, `postToLinkedIn`), by contrast,
return `false` only on a missing input element or a thrown exception and
fall through to `true` in every other case, even when the submit or
schedule control is missing or disabled. -/
theorem poster_boolean_semantics :
    (∀ (page : XPage) (content : String),
      ((autoPostToX page content).1 = true ↔
        (page.raisesError = false ∧ page.tweetBox = true ∧
          page.postBtn = some false)) ∧
      (autoPostToX page content).2.countP isSubmitClick
        = (if (autoPostToX page content).1 then 1 else 0)) ∧
    (∀ (page : LIPage) (content : String),
      ((autoPostToLinkedIn page content).1 = true ↔
        (page.raisesError = false ∧ page.editor = true ∧
          page.postBtn = some false)) ∧
      (autoPostToLinkedIn page content).2.countP isSubmitClick
        = (if (autoPostToLinkedIn page content).1 then 1 else 0)) ∧
    (∀ (page : XCPage) (post : Post),
      (ContentX.postToX page post).1 = (!page.raisesError && page.textarea)) ∧
    (∀ (page : LICPage) (post : Post),
      (ContentLI.postToLinkedIn page post).1 = (!page.raisesError && page.editor)) := by
  refine ⟨?_, ?_, ?_, ?_⟩
  · intro page content
    rcases page with ⟨re, oc, cb, tb, pb⟩
    cases re <;> cases oc <;> cases cb <;> cases tb <;>
      rcases pb with _ | b <;> (try cases b) <;>
      exact ⟨by simp [autoPostToX], by
        simp [autoPostToX, isSubmitClick, List.countP_append, List.countP_cons]⟩
  · intro page content
    rcases page with ⟨re, sp, ed, pb⟩
    cases re <;> cases sp <;> cases ed <;>
      rcases pb with _ | b <;> (try cases b) <;>
      exact ⟨by simp [autoPostToLinkedIn], by
        simp [autoPostToLinkedIn, isSubmitClick, List.countP_append,
              List.countP_cons]⟩
  · intro page post
    rcases page with ⟨re, oc, ta, te, sb, scb, pbn, hd⟩
    rcases post with ⟨pid, pc, pp, ps⟩
    cases re <;> cases oc <;> cases ta <;> cases te <;> cases sb <;>
      cases scb <;> cases pbn <;> rcases ps with _ | t <;>
      simp [ContentX.postToX]
  · intro page post
    rcases page with ⟨re, sp, ed, sb, di, ti, scb, pbn, hd⟩
    rcases post with ⟨pid, pc, pp, ps⟩
    cases re <;> cases sp <;> cases ed <;> cases sb <;> cases di <;>
      cases ti <;> cases scb <;> cases pbn <;> rcases ps with _ | t <;>
      simp [ContentLI.postToLinkedIn]

theorem poster_boolean_semantics_witness :
    (autoPostToX workingXPage "hi").1 = true ∧
    (ContentX.postToX noSubmitXCPage plainXPost).1
      = (!noSubmitXCPage.raisesError && noSubmitXCPage.textarea) :=
  ⟨(poster_boolean_semantics.1 workingXPage "hi").1.mpr ⟨rfl, rfl, rfl⟩,
   poster_boolean_semantics.2.2.1 noSubmitXCPage plainXPost⟩

/-- C5 counterexample: for a due post that carries an (elapsed)
`scheduled_time`, the orchestration pass invokes the background X poster,
which injects `autoPostToX`; on a fully working page that injected
poster performs the immediate submit click and no scheduling-UI action
at all — refuting "attempts to open the platform's native scheduling UI
... instead of performing the immediate submit click". -/
theorem scheduled_post_immediate_submit_cex :
    duePost.scheduled_time = some 100 ∧
    Effect.inject 5 .autoPostToX "hello" ∈ processPost sampleEnv duePost ∧
    (autoPostToX workingXPage "hello").2.countP isScheduleAction = 0 ∧
    (autoPostToX workingXPage "hello").2.countP isSubmitClick = 1 := by
  decide

/-- A content-script X page whose native scheduling UI is present. -/
def schedXCPage : XCPage :=
  { raisesError := false, onComposePage := true, textarea := true
    textContentEmptyAfterInsert := false, scheduleBtn := true
    scheduleConfirmBtn := true, postBtn := false, humanDelay := 500 }

def schedPost : Post :=
  { id := "p11", content := "soon", platform := "x", scheduled_time := some 99999 }

/-- C5 amended: the posters the orchestration pass actually invokes —
the background-injected `autoPostToX` and `autoPostToLinkedIn`, which
receive only the post content — never perform any scheduling-UI action,
and a due post with an elapsed `scheduled_time` goes through the
background poster's immediate-submit path; the native-scheduling
attempt (open the scheduling UI, fill its date/time fields, confirm,
with no immediate submit click) exists only in the stand-alone
content-script posters `postToX` and `postToLinkedIn`, which no code in
the repository invokes. -/
theorem scheduling_path_semantics :
    (∀ (page : XPage) (content : String),
      (autoPostToX page content).2.countP isScheduleAction = 0) ∧
    (∀ (page : LIPage) (content : String),
      (autoPostToLinkedIn page content).2.countP isScheduleAction = 0) ∧
    (∀ (env : PostEnv) (post : Post) (t : Int),
      post.scheduled_time = some t → t ≤ env.now → post.platform = "x" →
        processPost env post
          = (Background.postToTwitter env.xEnv post).2 ++ [Effect.wait 3000]) ∧
    (∀ (env : XEnv) (post : Post),
      Effect.inject (xTabSetup env).1 .autoPostToX post.content
        ∈ (Background.postToTwitter env post).2) ∧
    (∀ (page : XCPage) (post : Post) (t : Int),
      post.scheduled_time = some t → page.raisesError = false →
      page.textarea = true → page.scheduleBtn = true →
        1 ≤ (ContentX.postToX page post).2.countP isScheduleAction ∧
        (ContentX.postToX page post).2.countP isSubmitClick = 0) ∧
    (∀ (page : LICPage) (post : Post) (t : Int),
      post.scheduled_time = some t → page.raisesError = false →
      page.editor = true → page.scheduleBtn = true →
        1 ≤ (ContentLI.postToLinkedIn page post).2.countP isScheduleAction ∧
        (ContentLI.postToLinkedIn page post).2.countP isSubmitClick = 0) := by
  refine ⟨?_, ?_, ?_, ?_, ?_, ?_⟩
  · intro page content
    rcases page with ⟨re, oc, cb, tb, pb⟩
    cases re <;> cases oc <;> cases cb <;> cases tb <;>
      rcases pb with _ | b <;> (try cases b) <;>
      simp [autoPostToX, isScheduleAction, List.countP_append, List.countP_cons]
  · intro page content
    rcases page with ⟨re, sp, ed, pb⟩
    cases re <;> cases sp <;> cases ed <;>
      rcases pb with _ | b <;> (try cases b) <;>
      simp [autoPostToLinkedIn, isScheduleAction, List.countP_append,
            List.countP_cons]
  · intro env post t ht hle hx
    unfold processPost
    rw [ht]
    have h : ¬ env.now < t := by omega
    simp [h, dispatchPost, hx]
  · intro env post
    unfold Background.postToTwitter
    cases hb : (autoPostToX env.page post.content).1 <;>
      cases ht : env.injectionThrows <;>
      simp [hb, ht, markPostAsPublished]
  · intro page post t ht hre hta hsb
    rcases page with ⟨re, oc, ta, te, sb, scb, pbn, hd⟩
    rcases post with ⟨pid, pc, pp, ps⟩
    simp only at hre hta hsb ht
    subst hre hta hsb ht
    cases oc <;> cases te <;> cases scb <;> cases pbn <;>
      simp [ContentX.postToX, isScheduleAction, isSubmitClick,
            List.countP_append, List.countP_cons]
  · intro page post t ht hre hed hsb
    rcases page with ⟨re, sp, ed, sb, di, ti, scb, pbn, hd⟩
    rcases post with ⟨pid, pc, pp, ps⟩
    simp only at hre hed hsb ht
    subst hre hed hsb ht
    cases sp <;> cases di <;> cases ti <;> cases scb <;> cases pbn <;>
      simp [ContentLI.postToLinkedIn, isScheduleAction, isSubmitClick,
            List.countP_append, List.countP_cons]

theorem scheduling_path_semantics_witness :
    1 ≤ (ContentX.postToX schedXCPage schedPost).2.countP isScheduleAction ∧
    (ContentX.postToX schedXCPage schedPost).2.countP isSubmitClick = 0 :=
  scheduling_path_semantics.2.2.2.2.1 schedXCPage schedPost 99999 rfl rfl rfl rfl

end FounderOS
